import Mathlib

/-!
Verification of `Scripts/check_for_cuda.py`.

The script is a linear sequence of CUDA runtime queries wrapped in a single
`try/except Exception` handler:

    try:
        ... first load the binding itself: "import" torch ...
        device_id = torch.cuda.current_device()
        print(f"Current device id {device_id}")
        torch.cuda.device(device_id)
        device_count = torch.cuda.device_count()
        print(f"Total number of available-cuda GPUs {device_count}")
        device_name = torch.cuda.get_device_name(device_id)
        print(f"The name of the current device {device_name}")
        if torch.cuda.is_available():
            print("Success")
        else:
            print("Error")
    except Exception as ex:
        print("Cuda is not properly installed: " + str(ex))

We embed the external runtime as a record of fallible operations (an
exception is represented by its `str(ex)` message) and the script as a pure
function returning the list of stdout lines together with the trace of
runtime calls it performed, in order, each with the argument it received and
the result the runtime gave back.
-/

/-- The fixed text prepended by the `except` handler. -/
def errHeader : String := "Cuda is not properly installed: "

/-- One call performed by the script against the CUDA runtime, recording the
argument passed (where there is one) and the result the runtime returned. -/
inductive CudaCall where
  | importTorch (res : Except String Unit)
  | current_device (res : Except String Int)
  | device (arg : Int) (res : Except String Unit)
  | device_count (res : Except String Int)
  | get_device_name (arg : Int) (res : Except String String)
  | is_available (res : Except String Bool)

/-- The message of the exception raised by a call, if it raised one. -/
def callErr : CudaCall → Option String
  | .importTorch (.error m) => some m
  | .current_device (.error m) => some m
  | .device _ (.error m) => some m
  | .device_count (.error m) => some m
  | .get_device_name _ (.error m) => some m
  | .is_available (.error m) => some m
  | _ => none

/-- The external CUDA runtime, as the script sees it: each operation either
returns a value or raises an exception carrying a message.  `importTorch`
stands for the `import torch` statement itself, which may also raise. -/
structure Runtime where
  importTorch : Except String Unit
  current_device : Except String Int
  device : Int → Except String Unit
  device_count : Except String Int
  get_device_name : Int → Except String String
  is_available : Except String Bool

/-- The script `check_for_cuda.py`, translated statement by statement: it
returns the stdout lines and the trace of runtime calls it made. -/
def check_for_cuda (rt : Runtime) : List String × List CudaCall :=
  match rt.importTorch with
  | .error ex => ([errHeader ++ ex], [.importTorch (.error ex)])
  | .ok _ =>
  match rt.current_device with
  | .error ex =>
      ([errHeader ++ ex],
       [.importTorch (.ok ()), .current_device (.error ex)])
  | .ok device_id =>
  let line1 := "Current device id " ++ toString device_id
  match rt.device device_id with
  | .error ex =>
      ([line1, errHeader ++ ex],
       [.importTorch (.ok ()), .current_device (.ok device_id),
        .device device_id (.error ex)])
  | .ok _ =>
  match rt.device_count with
  | .error ex =>
      ([line1, errHeader ++ ex],
       [.importTorch (.ok ()), .current_device (.ok device_id),
        .device device_id (.ok ()), .device_count (.error ex)])
  | .ok device_count =>
  let line2 := "Total number of available-cuda GPUs " ++ toString device_count
  match rt.get_device_name device_id with
  | .error ex =>
      ([line1, line2, errHeader ++ ex],
       [.importTorch (.ok ()), .current_device (.ok device_id),
        .device device_id (.ok ()), .device_count (.ok device_count),
        .get_device_name device_id (.error ex)])
  | .ok device_name =>
  let line3 := "The name of the current device " ++ device_name
  match rt.is_available with
  | .error ex =>
      ([line1, line2, line3, errHeader ++ ex],
       [.importTorch (.ok ()), .current_device (.ok device_id),
        .device device_id (.ok ()), .device_count (.ok device_count),
        .get_device_name device_id (.ok device_name),
        .is_available (.error ex)])
  | .ok avail =>
      ([line1, line2, line3, if avail then "Success" else "Error"],
       [.importTorch (.ok ()), .current_device (.ok device_id),
        .device device_id (.ok ()), .device_count (.ok device_count),
        .get_device_name device_id (.ok device_name),
        .is_available (.ok avail)])

/-- A fully successful mock runtime: one device, index 0, named "Mock GPU". -/
def mockRt : Runtime where
  importTorch := .ok ()
  current_device := .ok 0
  device := fun _ => .ok ()
  device_count := .ok 1
  get_device_name := fun _ => .ok "Mock GPU"
  is_available := .ok true

/-- A printed line has the shape of one of the three status lines that the
script prints before the `Success`/`Error` verdict. -/
def isStatusLine (l : String) : Prop :=
  (∃ i : Int, l = "Current device id " ++ toString i) ∨
  (∃ n : Int, l = "Total number of available-cuda GPUs " ++ toString n) ∨
  (∃ s : String, l = "The name of the current device " ++ s)

/-- The CUDA runtime with its process-global current-device selector made
explicit, for the idempotence claim: `selected` is the selector, read by the
current-device query and written by the set-device call; the remaining fields
fix how the other operations respond (they do not touch the selector). -/
structure CudaState where
  importResult : Except String Unit
  currentErr : Option String
  selected : Int
  setErr : Int → Option String
  countResult : Except String Int
  nameResult : Int → Except String String
  availResult : Except String Bool

/-- `torch.cuda.current_device()` against the stateful runtime: reads the
selector (or raises), leaving the state unchanged. -/
def stCurrent (s : CudaState) : Except String Int × CudaState :=
  match s.currentErr with
  | some m => (.error m, s)
  | none => (.ok s.selected, s)

/-- `torch.cuda.device(i)` against the stateful runtime: writes the selector
on success, leaves the state unchanged on failure. -/
def stSet (i : Int) (s : CudaState) : Except String Unit × CudaState :=
  match s.setErr i with
  | some m => (.error m, s)
  | none => (.ok (), { s with selected := i })

/-- The script run against the stateful runtime, threading the runtime state
through the two selector-touching calls; returns stdout and the final state. -/
def check_for_cuda_st (s : CudaState) : List String × CudaState :=
  match s.importResult with
  | .error ex => ([errHeader ++ ex], s)
  | .ok _ =>
  match stCurrent s with
  | (.error ex, s1) => ([errHeader ++ ex], s1)
  | (.ok device_id, s1) =>
  let line1 := "Current device id " ++ toString device_id
  match stSet device_id s1 with
  | (.error ex, s2) => ([line1, errHeader ++ ex], s2)
  | (.ok _, s2) =>
  match s2.countResult with
  | .error ex => ([line1, errHeader ++ ex], s2)
  | .ok device_count =>
  let line2 := "Total number of available-cuda GPUs " ++ toString device_count
  match s2.nameResult device_id with
  | .error ex => ([line1, line2, errHeader ++ ex], s2)
  | .ok device_name =>
  let line3 := "The name of the current device " ++ device_name
  match s2.availResult with
  | .error ex => ([line1, line2, line3, errHeader ++ ex], s2)
  | .ok avail =>
      ([line1, line2, line3, if avail then "Success" else "Error"], s2)

/-- C1: for a runtime where no query raises, the current-device query returns
0, the device-count query returns 1, the device-name query returns "Mock GPU"
and the availability query returns true, stdout is exactly the four lines
`Current device id 0`, `Total number of available-cuda GPUs 1`,
`The name of the current device Mock GPU`, `Success`, in that order. -/
theorem c1_happy_path (rt : Runtime)
    (h0 : rt.importTorch = .ok ())
    (h1 : rt.current_device = .ok 0)
    (h2 : rt.device 0 = .ok ())
    (h3 : rt.device_count = .ok 1)
    (h4 : rt.get_device_name 0 = .ok "Mock GPU")
    (h5 : rt.is_available = .ok true) :
    (check_for_cuda rt).1 =
      ["Current device id 0",
       "Total number of available-cuda GPUs 1",
       "The name of the current device Mock GPU",
       "Success"] := by
  simp [check_for_cuda, h0, h1, h2, h3, h4, h5]
  decide

/-- C1 witness: the happy-path theorem applied to the concrete mock. -/
theorem c1_happy_path_witness :
    (check_for_cuda mockRt).1 =
      ["Current device id 0",
       "Total number of available-cuda GPUs 1",
       "The name of the current device Mock GPU",
       "Success"] :=
  c1_happy_path mockRt rfl rfl rfl rfl rfl rfl

/-- Helper: a string with a long prefix cannot equal a shorter literal. -/
theorem append_ne_of_short (a b c : String) (h : c.length < a.length) :
    a ++ b ≠ c := by
  intro hc
  have hl := congrArg String.length hc
  rw [String.length_append] at hl
  omega

/-- C3: if the first four operations succeed and the availability query
returns false, the first three printed lines are the same as for the
availability-true runtime and the fourth (last) line is `Error`; no call in
the trace raised, i.e. the failure branch is not taken. -/
theorem c3_unavailable (rt : Runtime) (i n : Int) (s : String)
    (h0 : rt.importTorch = .ok ())
    (h1 : rt.current_device = .ok i)
    (h2 : rt.device i = .ok ())
    (h3 : rt.device_count = .ok n)
    (h4 : rt.get_device_name i = .ok s)
    (h5 : rt.is_available = .ok false) :
    (check_for_cuda rt).1 =
      (check_for_cuda { rt with is_available := .ok true }).1.take 3 ++ ["Error"]
      ∧ ∀ c ∈ (check_for_cuda rt).2, callErr c = none := by
  constructor
  · simp [check_for_cuda, h0, h1, h2, h3, h4, h5]
  · intro c hc
    simp [check_for_cuda, h0, h1, h2, h3, h4, h5] at hc
    rcases hc with hc | hc | hc | hc | hc | hc <;> subst hc <;> rfl

/-- C3 witness: the theorem applied to the mock runtime with availability
false. -/
theorem c3_unavailable_witness :
    (check_for_cuda { mockRt with is_available := .ok false }).1 =
      (check_for_cuda { { mockRt with is_available := .ok false }
          with is_available := .ok true }).1.take 3 ++ ["Error"]
      ∧ ∀ c ∈ (check_for_cuda { mockRt with is_available := .ok false }).2,
          callErr c = none :=
  c3_unavailable { mockRt with is_available := .ok false } 0 1 "Mock GPU"
    rfl rfl rfl rfl rfl rfl

/-- C4: if the very first operation — loading the binding (`import torch`)
or the current-device query — raises with message m, stdout is exactly the
single failure line, with zero status lines before it. -/
theorem c4_first_op_fails (rt : Runtime) (m : String)
    (h : rt.importTorch = .error m ∨
         (rt.importTorch = .ok () ∧ rt.current_device = .error m)) :
    (check_for_cuda rt).1 = [errHeader ++ m] := by
  rcases h with h | ⟨h0, h1⟩
  · simp [check_for_cuda, h]
  · simp [check_for_cuda, h0, h1]

/-- C4 witness: the theorem applied to a mock whose current-device query
raises "no such module". -/
theorem c4_first_op_fails_witness :
    (check_for_cuda { mockRt with current_device := .error "no such module" }).1
      = [errHeader ++ "no such module"] :=
  c4_first_op_fails _ _ (Or.inr ⟨rfl, rfl⟩)

/-- Helper for C8: one run of the script leaves the runtime state exactly as
it found it — the only write is the set-device call, and it writes back the
index the current-device query just returned. -/
theorem check_for_cuda_st_state_fixed (s : CudaState) :
    (check_for_cuda_st s).2 = s := by
  rcases h0 : s.importResult with m | u
  · simp [check_for_cuda_st, h0]
  · rcases h1 : s.currentErr with _ | m
    · rcases h2 : s.setErr s.selected with _ | m
      · rcases h3 : s.countResult with m | n
        · simp [check_for_cuda_st, stCurrent, stSet, h0, h1, h2, h3]
          rw [← h1, ← h0, ← h3]
        · rcases h4 : s.nameResult s.selected with m | nm
          · simp [check_for_cuda_st, stCurrent, stSet, h0, h1, h2, h3, h4]
            rw [← h1, ← h0, ← h3]
          · rcases h5 : s.availResult with m | b
            · simp [check_for_cuda_st, stCurrent, stSet, h0, h1, h2, h3, h4, h5]
              rw [← h1, ← h0, ← h3, ← h5]
            · simp [check_for_cuda_st, stCurrent, stSet, h0, h1, h2, h3, h4, h5]
              rw [← h1, ← h0, ← h3, ← h5]
      · simp [check_for_cuda_st, stCurrent, stSet, h0, h1, h2]
    · simp [check_for_cuda_st, stCurrent, h0, h1]

/-- C8: the script is deterministic in the runtime state: running it twice
from the same state prints character-for-character identical output, and the
state after a run equals the state before it — the set-device call, the only
write, is a no-op on the already-selected device. -/
theorem c8_idempotent (s : CudaState) :
    (check_for_cuda_st ((check_for_cuda_st s).2)).1 = (check_for_cuda_st s).1
      ∧ (check_for_cuda_st s).2 = s := by
  refine ⟨?_, check_for_cuda_st_state_fixed s⟩
  rw [check_for_cuda_st_state_fixed s]

/-- Helper: every run of the script takes one of seven control paths — one
per operation that can raise first, plus the all-successful path — and on
each path the output and the call trace are fully determined by the runtime
responses that select it. -/
theorem check_for_cuda_shapes (rt : Runtime) :
    (∃ m, rt.importTorch = .error m ∧
      check_for_cuda rt = ([errHeader ++ m], [.importTorch (.error m)])) ∨
    (∃ m, rt.importTorch = .ok () ∧ rt.current_device = .error m ∧
      check_for_cuda rt = ([errHeader ++ m],
        [.importTorch (.ok ()), .current_device (.error m)])) ∨
    (∃ i m, rt.importTorch = .ok () ∧ rt.current_device = .ok i ∧
      rt.device i = .error m ∧
      check_for_cuda rt = (["Current device id " ++ toString i, errHeader ++ m],
        [.importTorch (.ok ()), .current_device (.ok i), .device i (.error m)])) ∨
    (∃ i m, rt.importTorch = .ok () ∧ rt.current_device = .ok i ∧
      rt.device i = .ok () ∧ rt.device_count = .error m ∧
      check_for_cuda rt = (["Current device id " ++ toString i, errHeader ++ m],
        [.importTorch (.ok ()), .current_device (.ok i), .device i (.ok ()),
         .device_count (.error m)])) ∨
    (∃ i n m, rt.importTorch = .ok () ∧ rt.current_device = .ok i ∧
      rt.device i = .ok () ∧ rt.device_count = .ok n ∧
      rt.get_device_name i = .error m ∧
      check_for_cuda rt = (["Current device id " ++ toString i,
          "Total number of available-cuda GPUs " ++ toString n, errHeader ++ m],
        [.importTorch (.ok ()), .current_device (.ok i), .device i (.ok ()),
         .device_count (.ok n), .get_device_name i (.error m)])) ∨
    (∃ i n s m, rt.importTorch = .ok () ∧ rt.current_device = .ok i ∧
      rt.device i = .ok () ∧ rt.device_count = .ok n ∧
      rt.get_device_name i = .ok s ∧ rt.is_available = .error m ∧
      check_for_cuda rt = (["Current device id " ++ toString i,
          "Total number of available-cuda GPUs " ++ toString n,
          "The name of the current device " ++ s, errHeader ++ m],
        [.importTorch (.ok ()), .current_device (.ok i), .device i (.ok ()),
         .device_count (.ok n), .get_device_name i (.ok s),
         .is_available (.error m)])) ∨
    (∃ i n s b, rt.importTorch = .ok () ∧ rt.current_device = .ok i ∧
      rt.device i = .ok () ∧ rt.device_count = .ok n ∧
      rt.get_device_name i = .ok s ∧ rt.is_available = .ok b ∧
      check_for_cuda rt = (["Current device id " ++ toString i,
          "Total number of available-cuda GPUs " ++ toString n,
          "The name of the current device " ++ s,
          if b then "Success" else "Error"],
        [.importTorch (.ok ()), .current_device (.ok i), .device i (.ok ()),
         .device_count (.ok n), .get_device_name i (.ok s),
         .is_available (.ok b)])) := by
  rcases h0 : rt.importTorch with m | u
  · exact Or.inl ⟨m, rfl, by simp [check_for_cuda, h0]⟩
  · cases u
    rcases h1 : rt.current_device with m | i
    · exact Or.inr (Or.inl ⟨m, rfl, rfl, by simp [check_for_cuda, h0, h1]⟩)
    · rcases h2 : rt.device i with m | u2
      · exact Or.inr (Or.inr (Or.inl ⟨i, m, rfl, rfl, h2,
          by simp [check_for_cuda, h0, h1, h2]⟩))
      · cases u2
        rcases h3 : rt.device_count with m | n
        · exact Or.inr (Or.inr (Or.inr (Or.inl ⟨i, m, rfl, rfl, h2, rfl,
            by simp [check_for_cuda, h0, h1, h2, h3]⟩)))
        · rcases h4 : rt.get_device_name i with m | s
          · exact Or.inr (Or.inr (Or.inr (Or.inr (Or.inl ⟨i, n, m, rfl, rfl, h2,
              rfl, h4, by simp [check_for_cuda, h0, h1, h2, h3, h4]⟩))))
          · rcases h5 : rt.is_available with m | b
            · exact Or.inr (Or.inr (Or.inr (Or.inr (Or.inr (Or.inl ⟨i, n, s, m,
                rfl, rfl, h2, rfl, h4, rfl,
                by simp [check_for_cuda, h0, h1, h2, h3, h4, h5]⟩)))))
            · exact Or.inr (Or.inr (Or.inr (Or.inr (Or.inr (Or.inr ⟨i, n, s, b,
                rfl, rfl, h2, rfl, h4, rfl,
                by simp [check_for_cuda, h0, h1, h2, h3, h4, h5]⟩)))))

/-- Helper: the first status line has status-line shape. -/
theorem statusLine1 (i : Int) :
    isStatusLine ("Current device id " ++ toString i) := Or.inl ⟨i, rfl⟩

/-- Helper: the second status line has status-line shape. -/
theorem statusLine2 (n : Int) :
    isStatusLine ("Total number of available-cuda GPUs " ++ toString n) :=
  Or.inr (Or.inl ⟨n, rfl⟩)

/-- Helper: the third status line has status-line shape. -/
theorem statusLine3 (s : String) :
    isStatusLine ("The name of the current device " ++ s) :=
  Or.inr (Or.inr ⟨s, rfl⟩)

/-- C2: whenever some call in the run raised an exception with message m, the
script prints the status lines emitted before the failing step followed by
exactly one additional line, the failure line `Cuda is not properly
installed: m`, and nothing is re-raised (the run still returns its output). -/
theorem c2_failure_collapses (rt : Runtime) (m : String)
    (h : ∃ c ∈ (check_for_cuda rt).2, callErr c = some m) :
    ∃ pre, (check_for_cuda rt).1 = pre ++ [errHeader ++ m] ∧
      pre.length ≤ 3 ∧ ∀ l ∈ pre, isStatusLine l := by
  rcases h with ⟨c, hc, hm⟩
  rcases check_for_cuda_shapes rt with ⟨m', h0, he⟩ | ⟨m', h0, h1, he⟩ |
    ⟨i, m', h0, h1, h2, he⟩ | ⟨i, m', h0, h1, h2, h3, he⟩ |
    ⟨i, n, m', h0, h1, h2, h3, h4, he⟩ |
    ⟨i, n, s, m', h0, h1, h2, h3, h4, h5, he⟩ |
    ⟨i, n, s, b, h0, h1, h2, h3, h4, h5, he⟩
  · rw [he] at hc
    simp only [List.mem_singleton] at hc
    subst hc
    simp [callErr] at hm
    subst hm
    exact ⟨[], by simp [he], by simp, by simp⟩
  · rw [he] at hc
    simp only [List.mem_cons, List.not_mem_nil, or_false] at hc
    rcases hc with hc | hc <;> subst hc <;>
      simp [callErr] at hm
    subst hm
    exact ⟨[], by simp [he], by simp, by simp⟩
  · rw [he] at hc
    simp only [List.mem_cons, List.not_mem_nil, or_false] at hc
    rcases hc with hc | hc | hc <;> subst hc <;>
      simp [callErr] at hm
    subst hm
    refine ⟨["Current device id " ++ toString i], by simp [he], by simp, ?_⟩
    intro l hl
    simp only [List.mem_singleton] at hl
    subst hl
    exact statusLine1 i
  · rw [he] at hc
    simp only [List.mem_cons, List.not_mem_nil, or_false] at hc
    rcases hc with hc | hc | hc | hc <;> subst hc <;>
      simp [callErr] at hm
    subst hm
    refine ⟨["Current device id " ++ toString i], by simp [he], by simp, ?_⟩
    intro l hl
    simp only [List.mem_singleton] at hl
    subst hl
    exact statusLine1 i
  · rw [he] at hc
    simp only [List.mem_cons, List.not_mem_nil, or_false] at hc
    rcases hc with hc | hc | hc | hc | hc <;> subst hc <;>
      simp [callErr] at hm
    subst hm
    refine ⟨["Current device id " ++ toString i,
      "Total number of available-cuda GPUs " ++ toString n],
      by simp [he], by simp, ?_⟩
    intro l hl
    simp only [List.mem_cons, List.not_mem_nil, or_false] at hl
    rcases hl with hl | hl <;> subst hl
    · exact statusLine1 i
    · exact statusLine2 n
  · rw [he] at hc
    simp only [List.mem_cons, List.not_mem_nil, or_false] at hc
    rcases hc with hc | hc | hc | hc | hc | hc <;> subst hc <;>
      simp [callErr] at hm
    subst hm
    refine ⟨["Current device id " ++ toString i,
      "Total number of available-cuda GPUs " ++ toString n,
      "The name of the current device " ++ s],
      by simp [he], by simp, ?_⟩
    intro l hl
    simp only [List.mem_cons, List.not_mem_nil, or_false] at hl
    rcases hl with hl | hl | hl <;> subst hl
    · exact statusLine1 i
    · exact statusLine2 n
    · exact statusLine3 s
  · rw [he] at hc
    simp only [List.mem_cons, List.not_mem_nil, or_false] at hc
    rcases hc with hc | hc | hc | hc | hc | hc <;> subst hc <;>
      simp [callErr] at hm

/-- C2 witness: the theorem applied to a mock whose device-name query raises
"invalid device ordinal". -/
theorem c2_failure_collapses_witness :
    ∃ pre, (check_for_cuda { mockRt with
        get_device_name := fun _ => .error "invalid device ordinal" }).1
      = pre ++ [errHeader ++ "invalid device ordinal"] ∧
      pre.length ≤ 3 ∧ ∀ l ∈ pre, isStatusLine l :=
  c2_failure_collapses _ _
    ⟨.get_device_name 0 (.error "invalid device ordinal"),
     by simp [check_for_cuda, mockRt], rfl⟩

/-- C7: on every failure the underlying error message appears verbatim as the
suffix of the last printed line, after the fixed text `Cuda is not properly
installed: `, with no transformation. -/
theorem c7_message_verbatim (rt : Runtime) (m : String)
    (h : ∃ c ∈ (check_for_cuda rt).2, callErr c = some m) :
    (check_for_cuda rt).1.getLast? = some (errHeader ++ m) := by
  rcases h with ⟨c, hc, hm⟩
  rcases check_for_cuda_shapes rt with ⟨m', h0, he⟩ | ⟨m', h0, h1, he⟩ |
    ⟨i, m', h0, h1, h2, he⟩ | ⟨i, m', h0, h1, h2, h3, he⟩ |
    ⟨i, n, m', h0, h1, h2, h3, h4, he⟩ |
    ⟨i, n, s, m', h0, h1, h2, h3, h4, h5, he⟩ |
    ⟨i, n, s, b, h0, h1, h2, h3, h4, h5, he⟩
  · rw [he] at hc
    simp only [List.mem_singleton] at hc
    subst hc
    simp [callErr] at hm
    subst hm
    simp [he, List.getLast?]
  · rw [he] at hc
    simp only [List.mem_cons, List.not_mem_nil, or_false] at hc
    rcases hc with hc | hc <;> subst hc <;> simp [callErr] at hm
    subst hm
    simp [he, List.getLast?]
  · rw [he] at hc
    simp only [List.mem_cons, List.not_mem_nil, or_false] at hc
    rcases hc with hc | hc | hc <;> subst hc <;> simp [callErr] at hm
    subst hm
    simp [he, List.getLast?]
  · rw [he] at hc
    simp only [List.mem_cons, List.not_mem_nil, or_false] at hc
    rcases hc with hc | hc | hc | hc <;> subst hc <;> simp [callErr] at hm
    subst hm
    simp [he, List.getLast?]
  · rw [he] at hc
    simp only [List.mem_cons, List.not_mem_nil, or_false] at hc
    rcases hc with hc | hc | hc | hc | hc <;> subst hc <;> simp [callErr] at hm
    subst hm
    simp [he, List.getLast?]
  · rw [he] at hc
    simp only [List.mem_cons, List.not_mem_nil, or_false] at hc
    rcases hc with hc | hc | hc | hc | hc | hc <;> subst hc <;>
      simp [callErr] at hm
    subst hm
    simp [he, List.getLast?]
  · rw [he] at hc
    simp only [List.mem_cons, List.not_mem_nil, or_false] at hc
    rcases hc with hc | hc | hc | hc | hc | hc <;> subst hc <;>
      simp [callErr] at hm

/-- C7 witness: the theorem applied to a mock whose availability query raises
"driver shutting down". -/
theorem c7_message_verbatim_witness :
    (check_for_cuda { mockRt with
        is_available := .error "driver shutting down" }).1.getLast?
      = some (errHeader ++ "driver shutting down") :=
  c7_message_verbatim _ _
    ⟨.is_available (.error "driver shutting down"),
     by simp [check_for_cuda, mockRt], rfl⟩

/-- C5: if the current-device query, the set-device call and the device-count
query succeed but the device-name query raises with message m, stdout is the
two status lines followed by the failure line, and neither `Success` nor
`Error` is printed. -/
theorem c5_name_query_fails (rt : Runtime) (i n : Int) (m : String)
    (h0 : rt.importTorch = .ok ())
    (h1 : rt.current_device = .ok i)
    (h2 : rt.device i = .ok ())
    (h3 : rt.device_count = .ok n)
    (h4 : rt.get_device_name i = .error m) :
    (check_for_cuda rt).1 =
      ["Current device id " ++ toString i,
       "Total number of available-cuda GPUs " ++ toString n,
       errHeader ++ m] ∧
    "Success" ∉ (check_for_cuda rt).1 ∧ "Error" ∉ (check_for_cuda rt).1 := by
  have he : (check_for_cuda rt).1 =
      ["Current device id " ++ toString i,
       "Total number of available-cuda GPUs " ++ toString n,
       errHeader ++ m] := by
    simp [check_for_cuda, h0, h1, h2, h3, h4]
  refine ⟨he, ?_, ?_⟩ <;> rw [he] <;> intro hmem <;>
    simp only [List.mem_cons, List.not_mem_nil, or_false] at hmem <;>
    rcases hmem with hx | hx | hx <;>
    exact append_ne_of_short _ _ _ (by decide) hx.symm

/-- C5 witness: the theorem applied to a mock whose device-name query raises
"invalid device ordinal". -/
theorem c5_name_query_fails_witness :
    (check_for_cuda { mockRt with
        get_device_name := fun _ => .error "invalid device ordinal" }).1 =
      ["Current device id " ++ toString (0 : Int),
       "Total number of available-cuda GPUs " ++ toString (1 : Int),
       errHeader ++ "invalid device ordinal"] ∧
    "Success" ∉ (check_for_cuda { mockRt with
        get_device_name := fun _ => .error "invalid device ordinal" }).1 ∧
    "Error" ∉ (check_for_cuda { mockRt with
        get_device_name := fun _ => .error "invalid device ordinal" }).1 :=
  c5_name_query_fails _ 0 1 "invalid device ordinal" rfl rfl rfl rfl rfl

/-- C10: if the first four operations succeed but the availability query
raises with message m, the three status lines remain, followed by the single
failure line, and neither `Success` nor `Error` is printed. -/
theorem c10_avail_query_fails (rt : Runtime) (i n : Int) (s m : String)
    (h0 : rt.importTorch = .ok ())
    (h1 : rt.current_device = .ok i)
    (h2 : rt.device i = .ok ())
    (h3 : rt.device_count = .ok n)
    (h4 : rt.get_device_name i = .ok s)
    (h5 : rt.is_available = .error m) :
    (check_for_cuda rt).1 =
      ["Current device id " ++ toString i,
       "Total number of available-cuda GPUs " ++ toString n,
       "The name of the current device " ++ s,
       errHeader ++ m] ∧
    "Success" ∉ (check_for_cuda rt).1 ∧ "Error" ∉ (check_for_cuda rt).1 := by
  have he : (check_for_cuda rt).1 =
      ["Current device id " ++ toString i,
       "Total number of available-cuda GPUs " ++ toString n,
       "The name of the current device " ++ s,
       errHeader ++ m] := by
    simp [check_for_cuda, h0, h1, h2, h3, h4, h5]
  refine ⟨he, ?_, ?_⟩ <;> rw [he] <;> intro hmem <;>
    simp only [List.mem_cons, List.not_mem_nil, or_false] at hmem <;>
    rcases hmem with hx | hx | hx | hx <;>
    exact append_ne_of_short _ _ _ (by decide) hx.symm

/-- C10 witness: the theorem applied to a mock whose availability query
raises "CUDA driver initialization failed". -/
theorem c10_avail_query_fails_witness :
    (check_for_cuda { mockRt with
        is_available := .error "CUDA driver initialization failed" }).1 =
      ["Current device id " ++ toString (0 : Int),
       "Total number of available-cuda GPUs " ++ toString (1 : Int),
       "The name of the current device " ++ "Mock GPU",
       errHeader ++ "CUDA driver initialization failed"] ∧
    "Success" ∉ (check_for_cuda { mockRt with
        is_available := .error "CUDA driver initialization failed" }).1 ∧
    "Error" ∉ (check_for_cuda { mockRt with
        is_available := .error "CUDA driver initialization failed" }).1 :=
  c10_avail_query_fails _ 0 1 "Mock GPU" "CUDA driver initialization failed"
    rfl rfl rfl rfl rfl rfl

/-- C6: whenever the set-device call is reached, its argument is exactly the
index the immediately preceding current-device query returned — the trace
starts with the import, the current-device query returning that index, and
the set-device call on it — and the same index is the argument of any later
device-name query. -/
theorem c6_set_device_argument (rt : Runtime) (i : Int) (r : Except String Unit)
    (h : CudaCall.device i r ∈ (check_for_cuda rt).2) :
    rt.current_device = .ok i ∧
    (∃ rest, (check_for_cuda rt).2 =
      CudaCall.importTorch (.ok ()) :: CudaCall.current_device (.ok i) ::
        CudaCall.device i r :: rest) ∧
    ∀ j r', CudaCall.get_device_name j r' ∈ (check_for_cuda rt).2 → j = i := by
  rcases check_for_cuda_shapes rt with ⟨m', h0, he⟩ | ⟨m', h0, h1, he⟩ |
    ⟨i', m', h0, h1, h2, he⟩ | ⟨i', m', h0, h1, h2, h3, he⟩ |
    ⟨i', n, m', h0, h1, h2, h3, h4, he⟩ |
    ⟨i', n, s, m', h0, h1, h2, h3, h4, h5, he⟩ |
    ⟨i', n, s, b, h0, h1, h2, h3, h4, h5, he⟩
  · rw [he] at h
    simp at h
  · rw [he] at h
    simp at h
  · rw [he] at h
    simp only [List.mem_cons, List.not_mem_nil, or_false,
      CudaCall.device.injEq] at h
    rcases h with h | h | ⟨rfl, rfl⟩
    · exact absurd h (by simp)
    · exact absurd h (by simp)
    refine ⟨h1, ⟨[], by rw [he]⟩, ?_⟩
    intro j r' hj
    rw [he] at hj
    simp at hj
  · rw [he] at h
    simp only [List.mem_cons, List.not_mem_nil, or_false,
      CudaCall.device.injEq] at h
    rcases h with h | h | ⟨rfl, rfl⟩ | h
    · exact absurd h (by simp)
    · exact absurd h (by simp)
    · refine ⟨h1, ⟨[CudaCall.device_count (.error m')], by rw [he]⟩, ?_⟩
      intro j r' hj
      rw [he] at hj
      simp at hj
    · exact absurd h (by simp)
  · rw [he] at h
    simp only [List.mem_cons, List.not_mem_nil, or_false,
      CudaCall.device.injEq] at h
    rcases h with h | h | ⟨rfl, rfl⟩ | h | h
    · exact absurd h (by simp)
    · exact absurd h (by simp)
    · refine ⟨h1, ⟨[CudaCall.device_count (.ok n),
        CudaCall.get_device_name i (.error m')], by rw [he]⟩, ?_⟩
      intro j r' hj
      rw [he] at hj
      simp only [List.mem_cons, List.not_mem_nil, or_false,
        CudaCall.get_device_name.injEq] at hj
      rcases hj with hj | hj | hj | hj | ⟨hj, _⟩
      · exact absurd hj (by simp)
      · exact absurd hj (by simp)
      · exact absurd hj (by simp)
      · exact absurd hj (by simp)
      · exact hj
    · exact absurd h (by simp)
    · exact absurd h (by simp)
  · rw [he] at h
    simp only [List.mem_cons, List.not_mem_nil, or_false,
      CudaCall.device.injEq] at h
    rcases h with h | h | ⟨rfl, rfl⟩ | h | h | h
    · exact absurd h (by simp)
    · exact absurd h (by simp)
    · refine ⟨h1, ⟨[CudaCall.device_count (.ok n),
        CudaCall.get_device_name i (.ok s),
        CudaCall.is_available (.error m')], by rw [he]⟩, ?_⟩
      intro j r' hj
      rw [he] at hj
      simp only [List.mem_cons, List.not_mem_nil, or_false,
        CudaCall.get_device_name.injEq] at hj
      rcases hj with hj | hj | hj | hj | ⟨hj, _⟩ | hj
      · exact absurd hj (by simp)
      · exact absurd hj (by simp)
      · exact absurd hj (by simp)
      · exact absurd hj (by simp)
      · exact hj
      · exact absurd hj (by simp)
    · exact absurd h (by simp)
    · exact absurd h (by simp)
    · exact absurd h (by simp)
  · rw [he] at h
    simp only [List.mem_cons, List.not_mem_nil, or_false,
      CudaCall.device.injEq] at h
    rcases h with h | h | ⟨rfl, rfl⟩ | h | h | h
    · exact absurd h (by simp)
    · exact absurd h (by simp)
    · refine ⟨h1, ⟨[CudaCall.device_count (.ok n),
        CudaCall.get_device_name i (.ok s),
        CudaCall.is_available (.ok b)], by rw [he]⟩, ?_⟩
      intro j r' hj
      rw [he] at hj
      simp only [List.mem_cons, List.not_mem_nil, or_false,
        CudaCall.get_device_name.injEq] at hj
      rcases hj with hj | hj | hj | hj | ⟨hj, _⟩ | hj
      · exact absurd hj (by simp)
      · exact absurd hj (by simp)
      · exact absurd hj (by simp)
      · exact absurd hj (by simp)
      · exact hj
      · exact absurd hj (by simp)
    · exact absurd h (by simp)
    · exact absurd h (by simp)
    · exact absurd h (by simp)

/-- C6 witness: the theorem applied to the fully successful mock. -/
theorem c6_set_device_argument_witness :
    mockRt.current_device = .ok 0 ∧
    (∃ rest, (check_for_cuda mockRt).2 =
      CudaCall.importTorch (.ok ()) :: CudaCall.current_device (.ok 0) ::
        CudaCall.device 0 (.ok ()) :: rest) ∧
    ∀ j r', CudaCall.get_device_name j r' ∈ (check_for_cuda mockRt).2 → j = 0 :=
  c6_set_device_argument mockRt 0 (.ok ()) (by simp [check_for_cuda, mockRt])

/-- C9: once the first three steps have succeeded, the device-name query is
invoked with the index from step 1 for every value the device-count query
returns — the index is never validated against the count — and the count only
affects the count line itself: removing that line from the output makes runs
with different counts identical. -/
theorem c9_count_unused (rt : Runtime) (i n n' : Int)
    (h0 : rt.importTorch = .ok ())
    (h1 : rt.current_device = .ok i)
    (h2 : rt.device i = .ok ()) :
    (∃ r, CudaCall.get_device_name i r ∈
        (check_for_cuda { rt with device_count := .ok n }).2) ∧
    ((check_for_cuda { rt with device_count := .ok n }).1).eraseIdx 1 =
      ((check_for_cuda { rt with device_count := .ok n' }).1).eraseIdx 1 := by
  constructor
  · rcases h4 : rt.get_device_name i with m | s
    · exact ⟨.error m, by simp [check_for_cuda, h0, h1, h2, h4]⟩
    · rcases h5 : rt.is_available with m | b
      · exact ⟨.ok s, by simp [check_for_cuda, h0, h1, h2, h4, h5]⟩
      · exact ⟨.ok s, by simp [check_for_cuda, h0, h1, h2, h4, h5]⟩
  · rcases h4 : rt.get_device_name i with m | s
    · simp [check_for_cuda, h0, h1, h2, h4, List.eraseIdx]
    · rcases h5 : rt.is_available with m | b
      · simp [check_for_cuda, h0, h1, h2, h4, h5, List.eraseIdx]
      · simp [check_for_cuda, h0, h1, h2, h4, h5, List.eraseIdx]

/-- C9 witness: the theorem applied to the mock with the count replaced by 5
and by 0. -/
theorem c9_count_unused_witness :
    (∃ r, CudaCall.get_device_name 0 r ∈
        (check_for_cuda { mockRt with device_count := .ok 5 }).2) ∧
    ((check_for_cuda { mockRt with device_count := .ok 5 }).1).eraseIdx 1 =
      ((check_for_cuda { mockRt with device_count := .ok 0 }).1).eraseIdx 1 :=
  c9_count_unused mockRt 0 5 0 rfl rfl rfl
